import Mathlib

/-
Verification of the Eatly restaurant backend: a shallow embedding of the
`apps/restaurants` view layer (`views.py`), its permission layer
(`permissions.py`), the data model (`models.py`, `apps/user/models.py`) and
the registration validators (`apps/user/validators.py`), together with
theorems settling the specification claims about ownership authorization,
the category/delivery toggle, role auto-promotion, and error signalling.

Machine integers are modelled as `Int` (database primary keys), strings as
Lean `String`, and the relational store as explicit lists of rows.  Each
HTTP endpoint is a pure function from the database and the request to a
response together with the successor database.  An uncaught Python
exception (AttributeError / TypeError / IntegrityError) is modelled as the
`Resp.pyError` outcome, distinct from every completed HTTP response.
-/

namespace Eatly

/-- The user role choices, from `User.ROLE_CHOICES` in `apps/user/models.py`
(`customer` / `owner`); the role entity referenced by the views exposes the
`owner` member used in the comparisons. -/
inductive Role where
  | customer
  | owner
deriving DecidableEq, Repr, BEq

/-- A row of the user table, from the `User` model in `apps/user/models.py`:
email, name, password hash, role, and the two boolean flags.  Timestamp
columns of `AbstractBaseModel` are not referenced by any claim and are
omitted. -/
structure UserRec where
  id : Int
  email : String
  name : String
  password : String
  role : Role
  is_admin : Bool
  is_active : Bool
deriving DecidableEq, Repr

/-- A row of the restaurant table, from the `Restaurant` model in
`apps/restaurants/models.py`: the five scalar columns, the owner foreign
key, and the `deleted_at` column contributed by `AbstractSoftDeleteModel`
(`apps/abstract/models.py`). -/
structure RestaurantRec where
  id : Int
  name : String
  description : Option String
  image_url : Option String
  address : Option String
  address_link : Option String
  owner : Int
  deleted_at : Option Int
deriving DecidableEq, Repr

/-- A row of the `RestaurantCategory` join table
(`apps/restaurants/models.py`): restaurant FK, category FK, and the
creation timestamp. -/
structure RestaurantCategoryRec where
  restaurant : Int
  category : Int
  created_at : Int
deriving DecidableEq, Repr

/-- A row of the `DeliveryLink` table (`apps/restaurants/models.py`): a
plain foreign key to one restaurant (related_name `delivery_links`), never
many-to-many. -/
structure DeliveryLinkRec where
  id : Int
  restaurant : Int
  platform_name : String
  platform_url : String
deriving DecidableEq, Repr

/-- The relational store: user rows, restaurant rows, the ids of the
category rows (their name/description columns are never read by the
endpoints under study), the restaurant-category join rows, and the delivery
link rows. -/
structure DB where
  users : List UserRec
  restaurants : List RestaurantRec
  categories : List Int
  restaurant_categories : List RestaurantCategoryRec
  delivery_links : List DeliveryLinkRec
deriving DecidableEq, Repr

/-- HTTP outcome of one request: either a completed response with a status
code, or an uncaught Python exception escaping the handler. -/
inductive Resp where
  | status (code : Nat)
  | pyError (msg : String)
deriving DecidableEq, Repr

def attrErrorDeliveryMethods : String :=
  "AttributeError: Restaurant object has no attribute delivery_methods"

def typeErrorAnonymousFilter : String :=
  "TypeError: Field id expected a number but got AnonymousUser"

def attrErrorAnonymousRole : String :=
  "AttributeError: AnonymousUser object has no attribute role"

def integrityErrorCategory : String :=
  "IntegrityError: RestaurantCategory.category_id violates a foreign key"

/-! ### String helpers

Character-list renderings of the string operations the source relies on,
kept kernel-evaluable so witnesses can be checked by `decide`. -/

/-- `s` starts with `p` (character-wise). -/
def strStartsWith (s p : String) : Bool :=
  p.data.isPrefixOf s.data

def schemeHttp : String := "http://"
def schemeHttps : String := "https://"
def schemeFtp : String := "ftp://"
def schemeFtps : String := "ftps://"

/-- Abstraction of the framework URL validator applied by `URLField`: the
value carries one of the accepted schemes and a nonempty remainder.  No
claim depends on which strings exactly pass this check. -/
def looksLikeURL (s : String) : Bool :=
  (strStartsWith s schemeHttp && schemeHttp.length < s.length) ||
  (strStartsWith s schemeHttps && schemeHttps.length < s.length) ||
  (strStartsWith s schemeFtp && schemeFtp.length < s.length) ||
  (strStartsWith s schemeFtps && schemeFtps.length < s.length)

/-- A required `CharField` value: non-blank and within `max_length`. -/
def charFieldOk (maxLen : Nat) (s : String) : Bool :=
  !s.isEmpty && s.length ≤ maxLen

/-- The characters after the last occurrence of `sep`, if `sep` occurs:
functional rendering of the Python idiom `value.split(sep)[-1]` for the
occurring case. -/
def afterLastSep (sep : Char) : List Char → Option (List Char)
  | [] => none
  | c :: rest =>
    match afterLastSep sep rest with
    | some tail => some tail
    | none => if c == sep then some rest else none

/-! ### Registration validators (`apps/user/validators.py`) -/

/-- `_RESTRICTED_DOMAINS` from `apps/user/validators.py`, in source order
(the tuple lists `gmail.com` twice). -/
def RESTRICTED_DOMAINS : List String :=
  ["example.com", "test.com", "gmail.com", "mail.ru", "kbtu.kz",
   "yandex.ru", "yahoo.com", "gmail.com", "hotmail.com", "aol.com",
   "outlook.com", "icloud.com", "protonmail.com", "zoho.com", "gmx.com",
   "yahoo.co.uk", "live.com", "me.com", "msn.com", "comcast.net",
   "att.net", "bellsouth.net", "cox.net", "verizon.net", "earthlink.net"]

/-- The domain extracted by `validate_email_domain`:
`value.split('@')[-1]`, i.e. the substring after the last `at` sign, or
the whole value when no `at` sign occurs. -/
def emailDomain (value : String) : String :=
  match afterLastSep '@' value.data with
  | some cs => String.mk cs
  | none => value

/-- `validate_email_domain` from `apps/user/validators.py`: raises a
`ValidationError` when the domain is not a member of
`_RESTRICTED_DOMAINS`, returns normally otherwise. -/
def validate_email_domain (value : String) : Except String Unit :=
  if !(RESTRICTED_DOMAINS.contains (emailDomain value)) then
    Except.error (emailDomain value)
  else
    Except.ok ()

/-! ### Queries over the store -/

/-- `CustomUser.objects.get(pk=uid)`: the user row with the given id. -/
def findUser (db : DB) (uid : Int) : Option UserRec :=
  db.users.find? (fun x => x.id == uid)

/-- `Restaurant.objects.get(pk=pk)`: the restaurant row with the given id.
The default manager does not filter out soft-deleted rows. -/
def restaurantById (db : DB) (pk : Int) : Option RestaurantRec :=
  db.restaurants.find? (fun x => x.id == pk)

/-- The restaurant of least id among a nonempty candidate list: what
`QuerySet.first()` returns after the implicit `order_by(pk)`. -/
def minById (r : RestaurantRec) (rs : List RestaurantRec) : RestaurantRec :=
  rs.foldl (fun a b => if b.id < a.id then b else a) r

/-- `Restaurant.objects.filter(owner=user).first()`: the owner's
least-id restaurant, if any. -/
def firstByOwner (db : DB) (uid : Int) : Option RestaurantRec :=
  match db.restaurants.filter (fun r => r.owner == uid) with
  | [] => none
  | r :: rs => some (minById r rs)

/-- The join rows of one restaurant. -/
def catLinksOf (db : DB) (rid : Int) : List RestaurantCategoryRec :=
  db.restaurant_categories.filter (fun l => l.restaurant == rid)

/-- The category-id column of one restaurant's join rows: the set the
claims call `C`. -/
def catIdsOf (db : DB) (rid : Int) : List Int :=
  (catLinksOf db rid).map (fun l => l.category)

/-- The delivery-link rows of one restaurant. -/
def delLinksOf (db : DB) (rid : Int) : List DeliveryLinkRec :=
  db.delivery_links.filter (fun l => l.restaurant == rid)

/-- The relation names an instance of `Restaurant` actually exposes, from
`apps/restaurants/models.py`: the forward many-to-many `categories`, and
the reverse accessor named by `DeliveryLink.related_name`, which is
`delivery_links`.  Any other attribute name raises `AttributeError`. -/
def restaurantHasRelation (attr : String) : Bool :=
  attr == "categories" || attr == "delivery_links"

def deliveryMethodsAttr : String := "delivery_methods"

/-! ### Many-to-many operations (Django `RelatedManager`) -/

/-- `restaurant.categories.filter(id__in=ids).exists()`: some join row of
this restaurant carries one of the supplied category ids. -/
def m2mOverlap (links : List RestaurantCategoryRec) (rid : Int) (ids : List Int) : Bool :=
  links.any (fun l => l.restaurant == rid && ids.contains l.category)

/-- `restaurant.categories.remove(*ids)`: delete the join rows of this
restaurant whose category id is among the supplied ids. -/
def m2mRemove (links : List RestaurantCategoryRec) (rid : Int) (ids : List Int) :
    List RestaurantCategoryRec :=
  links.filter (fun l => !(l.restaurant == rid && ids.contains l.category))

/-- `restaurant.categories.set(ids)`: keep the join rows of this restaurant
whose category is among the target ids, drop the rest, and add one row per
distinct target id not yet linked. -/
def m2mSet (links : List RestaurantCategoryRec) (rid : Int) (ids : List Int) (now : Int) :
    List RestaurantCategoryRec :=
  links.filter (fun l => !(l.restaurant == rid) || ids.contains l.category) ++
    (ids.dedup.filter
      (fun c => !(links.any (fun l => l.restaurant == rid && l.category == c)))).map
      (fun c => RestaurantCategoryRec.mk rid c now)

/-! ### Permission layer

`apps/restaurants/permissions.py` and the `get_permissions` override of
`RestaurantViewSet` (`views.py`, lines 59-72). -/

inductive Perm where
  | isAuthenticated
  | isRestaurantOwner
  | allowAny
deriving DecidableEq, Repr

/-- The view actions the claims exercise.  `patch` stands for the
`partial_update` handler. -/
inductive ViewAction where
  | list
  | create
  | retrieve
  | update
  | patch
  | destroy
  | add
  | set_image
  | assign_categories
  | add_delivery_method
deriving DecidableEq, Repr

/-- `RestaurantViewSet.get_permissions` (views.py, lines 59-72): branches
on the action name; every action other than the named ones, including all
the custom `@action` handlers, falls to the final branch and receives
`AllowAny`.  The `permission_classes` keyword given to the `@action`
decorators is never consulted, because this override does not read it. -/
def get_permissions : ViewAction → List Perm
  | .list => [.isAuthenticated]
  | .create => [.isAuthenticated, .allowAny]
  | .retrieve => [.isAuthenticated, .isRestaurantOwner]
  | .update => [.isAuthenticated, .isRestaurantOwner]
  | .patch => [.isAuthenticated, .isRestaurantOwner]
  | .destroy => [.isAuthenticated, .isRestaurantOwner]
  | _ => [.allowAny]

/-- `has_permission` of each permission class, as evaluated by
`check_permissions` at dispatch.  `IsRestaurantOwner` overrides only
`has_object_permission`; its `has_permission` is inherited from
`BasePermission` and returns `True` unconditionally.  None of the handlers
under study ever calls `check_object_permissions`, so
`has_object_permission` is never invoked at runtime. -/
def hasPermission (p : Perm) (user : Option UserRec) : Bool :=
  match p with
  | .isAuthenticated => user.isSome
  | .isRestaurantOwner => true
  | .allowAny => true

/-- `IsRestaurantOwner.has_object_permission`
(`apps/restaurants/permissions.py`, lines 21-45), integer-object branch:
the ownership comparison `restaurant.owner_id == request.user.id`, with
`False` when the restaurant id resolves to no row.  Defined here exactly as
written, although no mutating handler reaches it. -/
def has_object_permission (db : DB) (userId : Int) (objId : Int) : Bool :=
  match restaurantById db objId with
  | some r => r.owner == userId
  | none => false

/-- Token resolution of the JWT authentication layer: no credentials yield
the anonymous user; credentials naming a user id resolve to that user row,
and a token whose subject no longer exists is rejected with 401 before the
handler runs. -/
def authenticate (db : DB) (actor : Option Int) : Except Resp (Option UserRec) :=
  match actor with
  | none => Except.ok none
  | some uid =>
    match findUser db uid with
    | some u => Except.ok (some u)
    | none => Except.error (Resp.status 401)

/-- Dispatch of one request: authentication, then `check_permissions` over
the list `get_permissions` returns; a failed check yields 401 for the
anonymous user and 403 otherwise, and only then does the handler body
run. -/
def runEndpoint (act : ViewAction) (db : DB) (actor : Option Int)
    (body : Option UserRec → Resp × DB) : Resp × DB :=
  match authenticate db actor with
  | .error resp => (resp, db)
  | .ok u =>
    if (get_permissions act).all (fun p => hasPermission p u) then
      body u
    else
      (if u.isSome then Resp.status 403 else Resp.status 401, db)

/-! ### Serializer payloads -/

/-- Input of `RestaurantCreateSerializer` (`serializers.py`): name,
description, address, address_link; `none` marks an absent key. -/
structure RestaurantCreatePayload where
  name : Option String := none
  description : Option String := none
  address : Option String := none
  address_link : Option String := none
deriving DecidableEq, Repr

/-- `RestaurantCreateSerializer.is_valid()`: `name` is required, non-blank
and at most 255 characters; `address` at most 255 characters when given;
`address_link` a URL when given; `description` unconstrained. -/
def createValid (p : RestaurantCreatePayload) : Bool :=
  (match p.name with
   | some s => charFieldOk 255 s
   | none => false) &&
  (match p.address with
   | some s => s.length ≤ 255
   | none => true) &&
  (match p.address_link with
   | some s => looksLikeURL s
   | none => true)

/-- Partial-update input of `RestaurantBaseSerializer` restricted to the
scalar columns of the model; `none` marks an absent key. -/
structure RestaurantPatch where
  name : Option String := none
  description : Option String := none
  image_url : Option String := none
  address : Option String := none
  address_link : Option String := none
deriving DecidableEq, Repr

/-- Validation of a partial update: each supplied field is checked against
its model constraints, absent fields are skipped. -/
def patchValid (p : RestaurantPatch) : Bool :=
  (match p.name with
   | some s => charFieldOk 255 s
   | none => true) &&
  (match p.address with
   | some s => s.length ≤ 255
   | none => true) &&
  (match p.image_url with
   | some s => looksLikeURL s
   | none => true) &&
  (match p.address_link with
   | some s => looksLikeURL s
   | none => true)

/-- Application of a valid partial update to a row: supplied fields
overwrite, absent fields persist.  `id` and `owner` are untouched. -/
def applyPatch (r : RestaurantRec) (p : RestaurantPatch) : RestaurantRec :=
  { r with
    name := p.name.getD r.name
    description := match p.description with
      | some s => some s
      | none => r.description
    image_url := match p.image_url with
      | some s => some s
      | none => r.image_url
    address := match p.address with
      | some s => some s
      | none => r.address
    address_link := match p.address_link with
      | some s => some s
      | none => r.address_link }

/-! ### Handler bodies (`apps/restaurants/views.py`) -/

/-- The fresh primary key a restaurant insert receives. -/
def nextRestaurantId (db : DB) : Int :=
  (db.restaurants.foldl (fun m r => max m r.id) 0) + 1

/-- The row `serializer.save(owner=user)` inserts for a valid creation
payload. -/
def newRestaurant (rid uid : Int) (p : RestaurantCreatePayload) : RestaurantRec :=
  { id := rid
    name := p.name.getD ""
    description := p.description
    image_url := none
    address := p.address
    address_link := p.address_link
    owner := uid
    deleted_at := none }

/-- `RestaurantViewSet.add` (views.py, lines 215-247): validate the creation
payload (400 on failure); then read `request.user.role` - the anonymous
user has no such attribute - and when the role differs from `OWNER`,
assign `OWNER` and persist with `update_fields=["role"]`; finally insert
the restaurant owned by the acting user and answer 201.  The third
component reports whether the role-write branch ran. -/
def addView (db : DB) (user : Option UserRec) (p : RestaurantCreatePayload) :
    Resp × DB × Bool :=
  if !(createValid p) then (Resp.status 400, db, false)
  else
    match user with
    | none => (Resp.pyError attrErrorAnonymousRole, db, false)
    | some u =>
      let promoted := db.users.map
        (fun x => if x.id == u.id then { x with role := Role.owner } else x)
      let roleStep : DB × Bool :=
        if u.role != Role.owner then ({ db with users := promoted }, true)
        else (db, false)
      let db1 := roleStep.1
      let rid := nextRestaurantId db1
      let inserted := db1.restaurants ++ [newRestaurant rid u.id p]
      (Resp.status 201, { db1 with restaurants := inserted }, roleStep.2)

/-- `RestaurantViewSet.destroy` (views.py, lines 308-341): the
`RestaurantDeleteSerializer` has only a read-only `id` field, so its
validation always passes; then fetch by pk (404 when absent) and call
`restaurant.delete()`, which is the soft delete of
`AbstractSoftDeleteModel`: it stamps `deleted_at` and persists only that
column, answering 204.  The body never consults `request.user`. -/
def destroyView (db : DB) (pk now : Int) : Resp × DB :=
  match restaurantById db pk with
  | none => (Resp.status 404, db)
  | some _ =>
    let rs := db.restaurants.map
      (fun x => if x.id == pk then { x with deleted_at := some now } else x)
    (Resp.status 204, { db with restaurants := rs })

/-- `RestaurantViewSet.partial_update` (views.py, lines 354-396): the
`RestaurantGetByIdSerializer` accepts any integer pk; fetch by pk (404 when
absent); validate the body (400 on failure); apply the update and answer
200.  The body never consults `request.user`. -/
def patchView (db : DB) (pk : Int) (p : RestaurantPatch) : Resp × DB :=
  match restaurantById db pk with
  | none => (Resp.status 404, db)
  | some _ =>
    if !(patchValid p) then (Resp.status 400, db)
    else
      let rs := db.restaurants.map
        (fun x => if x.id == pk then applyPatch x p else x)
      (Resp.status 200, { db with restaurants := rs })

/-- `RestaurantViewSet.set_image` (views.py, lines 414-441): validate the
`image_url` (400); look up `Restaurant.objects.filter(owner=request.user)
.first()` - a filter by the anonymous user raises `TypeError` - answer 404
when the actor owns no restaurant; otherwise persist the new URL with
`update_fields=["image_url"]` and answer 200. -/
def setImageView (db : DB) (user : Option UserRec) (payload : Option String) :
    Resp × DB :=
  match payload with
  | none => (Resp.status 400, db)
  | some url =>
    if !(looksLikeURL url) then (Resp.status 400, db)
    else
      match user with
      | none => (Resp.pyError typeErrorAnonymousFilter, db)
      | some u =>
        match firstByOwner db u.id with
        | none => (Resp.status 404, db)
        | some r =>
          let rs := db.restaurants.map
            (fun x => if x.id == r.id then { x with image_url := some url } else x)
          (Resp.status 200, { db with restaurants := rs })

/-- `RestaurantViewSet.assign_categories` (views.py, lines 460-489):
validate `category_ids` (a list of at least one integer, else 400); look up
the acting user's first restaurant (`TypeError` for the anonymous user, 404
when none); if any supplied id is currently linked, remove the supplied ids
from this restaurant's join rows; otherwise replace the restaurant's
category set with the supplied ids - a target id naming no category row
violates the join table's foreign key. -/
def assignCategoriesView (db : DB) (user : Option UserRec)
    (payload : Option (List Int)) (now : Int) : Resp × DB :=
  match payload with
  | none => (Resp.status 400, db)
  | some ids =>
    if ids.isEmpty then (Resp.status 400, db)
    else
      match user with
      | none => (Resp.pyError typeErrorAnonymousFilter, db)
      | some u =>
        match firstByOwner db u.id with
        | none => (Resp.status 404, db)
        | some r =>
          if m2mOverlap db.restaurant_categories r.id ids then
            let links := m2mRemove db.restaurant_categories r.id ids
            (Resp.status 200, { db with restaurant_categories := links })
          else if ids.all (fun c => db.categories.contains c) then
            let links := m2mSet db.restaurant_categories r.id ids now
            (Resp.status 200, { db with restaurant_categories := links })
          else (Resp.pyError integrityErrorCategory, db)

/-- `RestaurantViewSet.add_delivery_method` (views.py, lines 509-543):
validate `delivery_ids` (400); look up the acting user's first restaurant
(`TypeError` for the anonymous user, 404 when none); then access
`restaurant.delivery_methods` - the `Restaurant` model exposes no relation
of that name (`DeliveryLink.related_name` is `delivery_links`), so the
success path raises `AttributeError`.  The guarded branch spells out the
toggle the source text asks for; it is unreachable. -/
def addDeliveryView (db : DB) (user : Option UserRec)
    (payload : Option (List Int)) : Resp × DB :=
  match payload with
  | none => (Resp.status 400, db)
  | some ids =>
    if ids.isEmpty then (Resp.status 400, db)
    else
      match user with
      | none => (Resp.pyError typeErrorAnonymousFilter, db)
      | some u =>
        match firstByOwner db u.id with
        | none => (Resp.status 404, db)
        | some r =>
          if restaurantHasRelation deliveryMethodsAttr then
            if db.delivery_links.any
                (fun l => l.restaurant == r.id && ids.contains l.id) then
              let links := db.delivery_links.filter
                (fun l => !(l.restaurant == r.id && ids.contains l.id))
              (Resp.status 200, { db with delivery_links := links })
            else
              let links := db.delivery_links.map
                (fun l => if ids.contains l.id then { l with restaurant := r.id } else l)
              (Resp.status 200, { db with delivery_links := links })
          else (Resp.pyError attrErrorDeliveryMethods, db)

/-! ### Routed endpoints: dispatch wrapped around each handler body -/

def addEndpoint (db : DB) (actor : Option Int) (p : RestaurantCreatePayload) :
    Resp × DB × Bool :=
  match authenticate db actor with
  | .error resp => (resp, db, false)
  | .ok u =>
    if (get_permissions .add).all (fun q => hasPermission q u) then
      addView db u p
    else
      (if u.isSome then Resp.status 403 else Resp.status 401, db, false)

def destroyEndpoint (db : DB) (actor : Option Int) (pk now : Int) : Resp × DB :=
  runEndpoint .destroy db actor (fun _ => destroyView db pk now)

def patchEndpoint (db : DB) (actor : Option Int) (pk : Int) (p : RestaurantPatch) :
    Resp × DB :=
  runEndpoint .patch db actor (fun _ => patchView db pk p)

def setImageEndpoint (db : DB) (actor : Option Int) (payload : Option String) :
    Resp × DB :=
  runEndpoint .set_image db actor (fun u => setImageView db u payload)

def assignCategoriesEndpoint (db : DB) (actor : Option Int)
    (payload : Option (List Int)) (now : Int) : Resp × DB :=
  runEndpoint .assign_categories db actor
    (fun u => assignCategoriesView db u payload now)

def addDeliveryEndpoint (db : DB) (actor : Option Int)
    (payload : Option (List Int)) : Resp × DB :=
  runEndpoint .add_delivery_method db actor (fun u => addDeliveryView db u payload)

/-! ### Sample stores used by the closed theorems and witnesses -/

def sampleOwner : UserRec :=
  { id := 1, email := "owner@test.com", name := "Owner", password := "h1",
    role := Role.owner, is_admin := false, is_active := true }

def sampleCustomer : UserRec :=
  { id := 2, email := "user@test.com", name := "User", password := "h2",
    role := Role.customer, is_admin := false, is_active := true }

def sampleRestaurant : RestaurantRec :=
  { id := 1, name := "Testaurant", description := none, image_url := none,
    address := some "123 Test St", address_link := none, owner := 1,
    deleted_at := none }

/-- A store with one owner (user 1) holding restaurant 1 linked to category
1, one customer (user 2) owning nothing, three category rows, and one
delivery link of restaurant 1. -/
def sampleDB : DB :=
  { users := [sampleOwner, sampleCustomer]
    restaurants := [sampleRestaurant]
    categories := [1, 2, 3]
    restaurant_categories := [{ restaurant := 1, category := 1, created_at := 0 }]
    delivery_links := [{ id := 1, restaurant := 1, platform_name := "Glovo",
                         platform_url := "http://delivery.test/link1" }] }

def sampleCreate : RestaurantCreatePayload := { name := some "New Restaurant" }

def samplePatch : RestaurantPatch := { name := some "Hacked Name" }

def sampleImageURL : String := "http://img.test/pic"

def otherOwner : UserRec :=
  { id := 3, email := "third@test.com", name := "Third", password := "h3",
    role := Role.owner, is_admin := false, is_active := true }

def otherRestaurant : RestaurantRec :=
  { id := 2, name := "Other", description := none, image_url := none,
    address := none, address_link := none, owner := 3, deleted_at := none }

/-- A store with two distinct owners, each holding one restaurant with one
category link; used to exercise the frame property. -/
def pairDB : DB :=
  { users := [sampleOwner, otherOwner]
    restaurants := [sampleRestaurant, otherRestaurant]
    categories := [1, 2, 3]
    restaurant_categories := [{ restaurant := 1, category := 1, created_at := 0 },
                              { restaurant := 2, category := 2, created_at := 0 }]
    delivery_links := [{ id := 1, restaurant := 1, platform_name := "Glovo",
                         platform_url := "http://delivery.test/link1" }] }

/-! ### Helper lemmas -/

/-- Updating the rows matching a key and then looking the key up finds the
updated form of the row the lookup found before, provided the update
preserves the key. -/
theorem find_map_update {α : Type} (key : α → Int) (pk : Int) (f : α → α)
    (hf : ∀ x, key (f x) = key x) (l : List α) :
    (l.map (fun x => if key x == pk then f x else x)).find?
        (fun x => key x == pk) =
      (l.find? (fun x => key x == pk)).map f := by
  induction l with
  | nil => rfl
  | cons a t ih =>
    simp only [List.map_cons]
    by_cases h : key a = pk
    · have h1 : (if (key a == pk) = true then f a else a) = f a := by simp [h]
      rw [h1]
      have h2 : (key (f a) == pk) = true := by rw [hf]; exact beq_iff_eq.mpr h
      have h3 : (key a == pk) = true := beq_iff_eq.mpr h
      rw [List.find?_cons_of_pos (p := fun x => key x == pk) _ h2,
        List.find?_cons_of_pos (p := fun x => key x == pk) _ h3]
      rfl
    · have h1 : (if (key a == pk) = true then f a else a) = a := by simp [h]
      rw [h1]
      have h3 : ¬ ((key a == pk) = true) := by simpa using h
      rw [List.find?_cons_of_neg (p := fun x => key x == pk) _ h3,
        List.find?_cons_of_neg (p := fun x => key x == pk) _ h3, ih]

/-- The least-id fold stays within its candidates. -/
theorem minById_mem (r : RestaurantRec) (rs : List RestaurantRec) :
    minById r rs = r ∨ minById r rs ∈ rs := by
  induction rs generalizing r with
  | nil => left; rfl
  | cons b t ih =>
    have hstep : minById r (b :: t) = minById (if b.id < r.id then b else r) t := by
      simp [minById]
    rcases ih (if b.id < r.id then b else r) with h | h
    · by_cases hb : b.id < r.id
      · right
        rw [hstep, h, if_pos hb]
        exact List.mem_cons_self b t
      · left
        rw [hstep, h, if_neg hb]
    · right
      rw [hstep]
      exact List.mem_cons_of_mem b h

/-- A successful owner lookup returns one of the owner's restaurant rows. -/
theorem firstByOwner_owner (db : DB) (uid : Int) (r : RestaurantRec)
    (h : firstByOwner db uid = some r) :
    r.owner = uid ∧ r ∈ db.restaurants := by
  unfold firstByOwner at h
  cases hf : db.restaurants.filter (fun x => x.owner == uid) with
  | nil => rw [hf] at h; cases h
  | cons a t =>
    rw [hf] at h
    have hr : r = minById a t := by
      have := h
      simp at this
      exact this.symm
    have hmem : r ∈ a :: t := by
      rcases minById_mem a t with h1 | h1
      · rw [hr, h1]; exact List.mem_cons_self a t
      · rw [hr]; exact List.mem_cons_of_mem a h1
    have hmem2 : r ∈ db.restaurants.filter (fun x => x.owner == uid) := by
      rw [hf]; exact hmem
    have := List.mem_filter.mp hmem2
    exact ⟨beq_iff_eq.mp this.2, this.1⟩

/-- An actor owning no restaurant gets no row from the owner lookup. -/
theorem firstByOwner_none (db : DB) (uid : Int)
    (h : ∀ r ∈ db.restaurants, r.owner ≠ uid) :
    firstByOwner db uid = none := by
  unfold firstByOwner
  have : db.restaurants.filter (fun x => x.owner == uid) = [] := by
    rw [List.filter_eq_nil_iff]
    intro a ha
    simpa using h a ha
  rw [this]

/-- The delivery toggle endpoint never changes the store: every path short
of the success path answers without writing, and the success path raises
before its first write because the `delivery_methods` relation is
absent. -/
theorem addDelivery_preserves_db (db : DB) (actor : Option Int)
    (payload : Option (List Int)) :
    (addDeliveryEndpoint db actor payload).2 = db := by
  unfold addDeliveryEndpoint runEndpoint
  cases actor with
  | none =>
    simp only [authenticate]
    unfold addDeliveryView
    cases payload with
    | none => rfl
    | some ids =>
      by_cases h : ids.isEmpty <;> simp [h, get_permissions, hasPermission]
  | some uid =>
    simp only [authenticate]
    cases hu : findUser db uid with
    | none => rfl
    | some u =>
      simp only [get_permissions, List.all_cons, List.all_nil, hasPermission,
        Bool.and_true, if_true]
      unfold addDeliveryView
      cases payload with
      | none => rfl
      | some ids =>
        by_cases h : ids.isEmpty
        · simp [h]
        · simp only [h, Bool.false_eq_true, if_false]
          cases hr : firstByOwner db u.id with
          | none => rfl
          | some r =>
            have : restaurantHasRelation deliveryMethodsAttr = false := rfl
            simp [this]

theorem mem_catIds_m2mRemove (links : List RestaurantCategoryRec) (rid : Int)
    (ids : List Int) (c : Int) :
    c ∈ ((m2mRemove links rid ids).filter (fun l => l.restaurant == rid)).map
        (fun l => l.category) ↔
      (c ∈ (links.filter (fun l => l.restaurant == rid)).map (fun l => l.category)
        ∧ c ∉ ids) := by
  unfold m2mRemove
  rw [List.filter_filter]
  simp only [List.mem_map, List.mem_filter, Bool.and_eq_true, Bool.not_eq_true',
    Bool.and_eq_false_iff, beq_iff_eq, beq_eq_false_iff_ne]
  constructor
  · rintro ⟨l, ⟨hl, hrid, hkeep⟩, rfl⟩
    rcases hkeep with h1 | h2
    · exact absurd hrid h1
    · refine ⟨⟨l, ⟨hl, hrid⟩, rfl⟩, ?_⟩
      simpa using h2
  · rintro ⟨⟨l, ⟨hl, hrid⟩, rfl⟩, hnot⟩
    refine ⟨l, ⟨hl, hrid, Or.inr ?_⟩, rfl⟩
    simpa using hnot

theorem mem_catIds_m2mSet (links : List RestaurantCategoryRec) (rid : Int)
    (ids : List Int) (now : Int) (c : Int)
    (hov : m2mOverlap links rid ids = false) :
    c ∈ ((m2mSet links rid ids now).filter (fun l => l.restaurant == rid)).map
        (fun l => l.category) ↔ c ∈ ids := by
  unfold m2mSet m2mOverlap at *
  rw [List.filter_append, List.filter_filter]
  constructor
  · intro h
    rw [List.mem_map] at h
    obtain ⟨l, hl, rfl⟩ := h
    rw [List.mem_append] at hl
    rcases hl with hk | hn
    · have := List.mem_filter.mp hk
      rcases this with ⟨hmem, hcond⟩
      have hcond2 := hcond
      simp only [Bool.and_eq_true, beq_iff_eq] at hcond2
      rcases hcond2 with ⟨hrid, hor⟩
      rcases Bool.or_eq_true_iff.mp hor with hne | hcont
      · exfalso
        rw [Bool.not_eq_eq_eq_not] at hne
        simp [hrid] at hne
      · simpa using hcont
    · have := List.mem_filter.mp hn
      rcases this with ⟨hmem, _⟩
      rw [List.mem_map] at hmem
      obtain ⟨c2, hc2, rfl⟩ := hmem
      have := List.mem_filter.mp hc2
      have hmd := List.mem_dedup.mp this.1
      simpa using hmd
  · intro hc
    rw [List.mem_map]
    refine ⟨RestaurantCategoryRec.mk rid c now, ?_, rfl⟩
    rw [List.mem_append]
    right
    rw [List.mem_filter]
    constructor
    · rw [List.mem_map]
      refine ⟨c, ?_, rfl⟩
      rw [List.mem_filter]
      refine ⟨List.mem_dedup.mpr hc, ?_⟩
      rw [Bool.not_eq_true', List.any_eq_false]
      intro l hl
      rw [List.any_eq_false] at hov
      have h5 := hov l hl
      simp only [Bool.and_eq_true, beq_iff_eq, not_and] at h5 ⊢
      intro hr heq
      have h6 := h5 hr
      rw [heq] at h6
      simp at h6
      exact h6 hc
    · simp


theorem filter_m2mRemove_other (links : List RestaurantCategoryRec)
    (rid rid2 : Int) (ids : List Int) (h : rid ≠ rid2) :
    (m2mRemove links rid ids).filter (fun l => l.restaurant == rid2) =
      links.filter (fun l => l.restaurant == rid2) := by
  unfold m2mRemove
  rw [List.filter_filter]
  apply List.filter_congr
  intro a _
  by_cases h2 : a.restaurant = rid2
  · have h3 : (a.restaurant == rid) = false := by
      rw [beq_eq_false_iff_ne, h2]
      exact Ne.symm h
    have h4 : (rid2 == rid) = false := by
      rw [beq_eq_false_iff_ne]
      exact Ne.symm h
    simp [h2, h4]
  · simp [h2]

theorem filter_m2mSet_other (links : List RestaurantCategoryRec)
    (rid rid2 : Int) (ids : List Int) (now : Int) (h : rid ≠ rid2) :
    (m2mSet links rid ids now).filter (fun l => l.restaurant == rid2) =
      links.filter (fun l => l.restaurant == rid2) := by
  unfold m2mSet
  rw [List.filter_append]
  have hnew : (((ids.dedup.filter
      (fun c => !(links.any (fun l => l.restaurant == rid && l.category == c)))).map
      (fun c => RestaurantCategoryRec.mk rid c now)).filter
      (fun l => l.restaurant == rid2)) = [] := by
    rw [List.filter_eq_nil_iff]
    intro a ha
    rw [List.mem_map] at ha
    obtain ⟨c, _, rfl⟩ := ha
    simpa using h
  rw [hnew, List.append_nil, List.filter_filter]
  apply List.filter_congr
  intro a _
  by_cases h2 : a.restaurant = rid2
  · have h3 : (a.restaurant == rid) = false := by
      rw [beq_eq_false_iff_ne, h2]
      exact Ne.symm h
    have h4 : (rid2 == rid) = false := by
      rw [beq_eq_false_iff_ne]
      exact Ne.symm h
    simp [h2, h4]
  · simp [h2]

theorem runEndpoint_auth (act : ViewAction) (db : DB) (uid : Int) (u : UserRec)
    (body : Option UserRec → Resp × DB) (hu : findUser db uid = some u)
    (hall : (get_permissions act).all (fun p => hasPermission p (some u)) = true) :
    runEndpoint act db (some uid) body = body (some u) := by
  unfold runEndpoint
  simp only [authenticate]
  rw [hu]
  simp [hall]

theorem assign_preserves_delivery (db : DB) (actor : Option Int)
    (payload : Option (List Int)) (now : Int) :
    (assignCategoriesEndpoint db actor payload now).2.delivery_links =
      db.delivery_links := by
  unfold assignCategoriesEndpoint runEndpoint
  cases actor with
  | none =>
    simp only [authenticate]
    unfold assignCategoriesView
    cases payload with
    | none => simp [get_permissions, hasPermission]
    | some ids =>
      by_cases h : ids.isEmpty <;> simp [h, get_permissions, hasPermission]
  | some uid =>
    simp only [authenticate]
    cases hu : findUser db uid with
    | none => rfl
    | some u =>
      simp only [get_permissions, List.all_cons, List.all_nil, hasPermission,
        Bool.and_true, if_true]
      unfold assignCategoriesView
      cases payload with
      | none => rfl
      | some ids =>
        by_cases h : ids.isEmpty
        · simp [h]
        · simp only [h, Bool.false_eq_true, if_false]
          cases hr : firstByOwner db u.id with
          | none => rfl
          | some r =>
            dsimp only
            by_cases h2 : m2mOverlap db.restaurant_categories r.id ids
            · simp [h2]
            · rw [if_neg h2]
              split <;> rfl


/-- C10: the email-domain validator accepts an address exactly when the
substring after the last at-sign is a member of the fixed
`_RESTRICTED_DOMAINS` tuple; every other domain is rejected, so the list
acts as an allowlist despite its name. -/
theorem validate_email_domain_is_allowlist (value : String) :
    validate_email_domain value = Except.ok () ↔
      emailDomain value ∈ RESTRICTED_DOMAINS := by
  unfold validate_email_domain
  by_cases hm : emailDomain value ∈ RESTRICTED_DOMAINS
  · simp [hm]
  · simp [hm]

/-- C4: whenever the delivery toggle passes payload validation and finds
the acting user's restaurant, it raises `AttributeError` on the
`delivery_methods` access and leaves the store unchanged: the success path
never completes. -/
theorem add_delivery_always_raises (db : DB) (uid : Int) (u : UserRec)
    (ids : List Int) (r : RestaurantRec)
    (hu : findUser db uid = some u)
    (hne : ids.isEmpty = false)
    (hr : firstByOwner db u.id = some r) :
    addDeliveryEndpoint db (some uid) (some ids) =
      (Resp.pyError attrErrorDeliveryMethods, db) := by
  unfold addDeliveryEndpoint
  rw [runEndpoint_auth .add_delivery_method db uid u _ hu rfl]
  unfold addDeliveryView
  have hrel : restaurantHasRelation deliveryMethodsAttr = false := by decide
  simp only [hne, Bool.false_eq_true, if_false, hr, hrel]

/-- C8: an authenticated user owning no restaurant receives 404 from each
owner-scoped relationship operation - category assignment, delivery
assignment, image update - and the store is unchanged. -/
theorem ownerless_owner_scoped_404 (db : DB) (uid : Int) (u : UserRec)
    (catIds delIds : List Int) (url : String) (now : Int)
    (hu : findUser db uid = some u)
    (hown : ∀ r ∈ db.restaurants, r.owner ≠ u.id)
    (hc : catIds.isEmpty = false)
    (hd : delIds.isEmpty = false)
    (hurl : looksLikeURL url = true) :
    assignCategoriesEndpoint db (some uid) (some catIds) now = (Resp.status 404, db) ∧
    addDeliveryEndpoint db (some uid) (some delIds) = (Resp.status 404, db) ∧
    setImageEndpoint db (some uid) (some url) = (Resp.status 404, db) := by
  have hnone := firstByOwner_none db u.id hown
  refine ⟨?_, ?_, ?_⟩
  · unfold assignCategoriesEndpoint
    rw [runEndpoint_auth .assign_categories db uid u _ hu rfl]
    unfold assignCategoriesView
    simp only [hc, Bool.false_eq_true, if_false, hnone]
  · unfold addDeliveryEndpoint
    rw [runEndpoint_auth .add_delivery_method db uid u _ hu rfl]
    unfold addDeliveryView
    simp only [hd, Bool.false_eq_true, if_false, hnone]
  · unfold setImageEndpoint
    rw [runEndpoint_auth .set_image db uid u _ hu rfl]
    unfold setImageView
    simp only [hurl, Bool.not_true, Bool.false_eq_true, if_false, hnone]


/-- C1: a mutating request against an existing restaurant by an
authenticated non-owner is not denied: the partial update answers 200 and
overwrites the row, and the delete answers 204 and soft-deletes the row.
No ownership comparison runs on either path, contradicting the claim (and
the repository's own tests, which expect 403). -/
theorem nonowner_mutation_not_denied (db : DB) (uid pk now : Int) (u : UserRec)
    (r : RestaurantRec) (p : RestaurantPatch)
    (hu : findUser db uid = some u)
    (hr : restaurantById db pk = some r)
    (_hnown : r.owner ≠ uid)
    (hp : patchValid p = true) :
    (patchEndpoint db (some uid) pk p).1 = Resp.status 200 ∧
    restaurantById (patchEndpoint db (some uid) pk p).2 pk = some (applyPatch r p) ∧
    (destroyEndpoint db (some uid) pk now).1 = Resp.status 204 ∧
    restaurantById (destroyEndpoint db (some uid) pk now).2 pk =
      some { r with deleted_at := some now } := by
  have hpatch : patchEndpoint db (some uid) pk p = patchView db pk p := by
    unfold patchEndpoint
    rw [runEndpoint_auth .patch db uid u _ hu rfl]
  have hdest : destroyEndpoint db (some uid) pk now = destroyView db pk now := by
    unfold destroyEndpoint
    rw [runEndpoint_auth .destroy db uid u _ hu rfl]
  rw [hpatch, hdest]
  unfold patchView destroyView
  simp only [hr, hp, Bool.not_true, Bool.false_eq_true, if_false]
  refine ⟨trivial, ?_, trivial, ?_⟩
  · unfold restaurantById
    rw [find_map_update RestaurantRec.id pk (fun x => applyPatch x p)
      (fun x => rfl) db.restaurants]
    rw [show db.restaurants.find? (fun x => x.id == pk) = some r from hr]
    rfl
  · unfold restaurantById
    rw [find_map_update RestaurantRec.id pk
      (fun x => { x with deleted_at := some now }) (fun x => rfl) db.restaurants]
    rw [show db.restaurants.find? (fun x => x.id == pk) = some r from hr]
    rfl


/-- C9: unauthenticated requests to the owner-scoped custom actions are
not answered with 401: the overridden `get_permissions` hands every custom
action `AllowAny`, so the handler body runs for the anonymous user - an
invalid payload draws 400, and a valid payload reaches the owner lookup,
which raises `TypeError` (category assignment) or the role read, which
raises `AttributeError` (creation).  The repository's tests expect 401 on
all of these. -/
theorem custom_actions_skip_authentication :
    get_permissions ViewAction.assign_categories = [Perm.allowAny] ∧
    get_permissions ViewAction.add_delivery_method = [Perm.allowAny] ∧
    get_permissions ViewAction.add = [Perm.allowAny] ∧
    (assignCategoriesEndpoint sampleDB none none 0).1 = Resp.status 400 ∧
    (assignCategoriesEndpoint sampleDB none (some [1]) 0).1 =
      Resp.pyError typeErrorAnonymousFilter ∧
    (addDeliveryEndpoint sampleDB none (some [1])).1 =
      Resp.pyError typeErrorAnonymousFilter ∧
    (addEndpoint sampleDB none sampleCreate).1 =
      Resp.pyError attrErrorAnonymousRole := by
  refine ⟨rfl, rfl, rfl, rfl, rfl, rfl, ?_⟩
  have h : createValid sampleCreate = true := by decide
  unfold addEndpoint addView
  rw [h]
  rfl

/-- C6: the deny outcome and the absent outcome are not distinguishable as
403 versus 404: deleting an existing restaurant as a non-owner answers 204
and soft-deletes the row instead of 403, while deleting a missing id
answers 404.  The ownership comparison of `IsRestaurantOwner` would deny
the non-owner, but no handler invokes it. -/
theorem deny_and_absent_not_distinguishable :
    has_object_permission sampleDB 2 1 = false ∧
    destroyEndpoint sampleDB (some 2) 1 5 =
      (Resp.status 204,
        { sampleDB with
            restaurants := [{ sampleRestaurant with deleted_at := some 5 }] }) ∧
    destroyEndpoint sampleDB (some 2) 99 5 = (Resp.status 404, sampleDB) := by
  refine ⟨by decide, by decide, by decide⟩


/-- C3: a successful restaurant creation answers 201 and leaves the acting
user with the owner role; the role write runs exactly when the role
differed from owner beforehand, so an already-owner identity triggers no
role write at all and the user rows are untouched - the promotion is
idempotent and never reverses. -/
theorem add_promotes_role_once (db : DB) (uid : Int) (u : UserRec)
    (p : RestaurantCreatePayload)
    (hu : findUser db uid = some u)
    (hp : createValid p = true) :
    (addEndpoint db (some uid) p).1 = Resp.status 201 ∧
    (∃ u2, findUser (addEndpoint db (some uid) p).2.1 uid = some u2 ∧
      u2.role = Role.owner) ∧
    (u.role = Role.owner →
      (addEndpoint db (some uid) p).2.2 = false ∧
      (addEndpoint db (some uid) p).2.1.users = db.users) ∧
    (u.role ≠ Role.owner → (addEndpoint db (some uid) p).2.2 = true) := by
  have hu2 : db.users.find? (fun x => x.id == uid) = some u := hu
  have hid : u.id = uid := by
    have h1 := List.find?_some hu2
    simpa using h1
  have hbody : addEndpoint db (some uid) p = addView db (some u) p := by
    unfold addEndpoint
    simp only [authenticate]
    rw [hu]
    rfl
  rw [hbody]
  unfold addView
  simp only [hp, Bool.not_true, Bool.false_eq_true, if_false]
  obtain ⟨uid0, em, nm, pw, rl, ad, ac⟩ := u
  dsimp only at hid
  subst hid
  cases rl with
  | owner =>
    exact ⟨trivial, ⟨⟨uid0, em, nm, pw, Role.owner, ad, ac⟩, hu, rfl⟩,
      fun _ => ⟨rfl, rfl⟩, fun h => absurd rfl h⟩
  | customer =>
    refine ⟨trivial, ⟨⟨uid0, em, nm, pw, Role.owner, ad, ac⟩, ?_, rfl⟩,
      fun h => Role.noConfusion h, fun _ => rfl⟩
    show (db.users.map
        (fun x => if x.id == uid0 then { x with role := Role.owner } else x)).find?
        (fun x => x.id == uid0) = some ⟨uid0, em, nm, pw, Role.owner, ad, ac⟩
    rw [find_map_update UserRec.id uid0 (fun x => { x with role := Role.owner })
      (fun x => rfl) db.users]
    rw [hu2]
    rfl

/-- C7: when creation promotes the acting user, the persisted write touches
only the role column: the stored row afterwards agrees with the previous
row on email, name, password hash, is_active and is_admin. -/
theorem role_write_touches_only_role (db : DB) (uid : Int) (u : UserRec)
    (p : RestaurantCreatePayload)
    (hu : findUser db uid = some u)
    (hp : createValid p = true)
    (hrole : u.role ≠ Role.owner) :
    ∃ u2, findUser (addEndpoint db (some uid) p).2.1 uid = some u2 ∧
      u2.role = Role.owner ∧
      u2.email = u.email ∧
      u2.name = u.name ∧
      u2.password = u.password ∧
      u2.is_active = u.is_active ∧
      u2.is_admin = u.is_admin := by
  have hu2 : db.users.find? (fun x => x.id == uid) = some u := hu
  have hid : u.id = uid := by
    have h1 := List.find?_some hu2
    simpa using h1
  have hbody : addEndpoint db (some uid) p = addView db (some u) p := by
    unfold addEndpoint
    simp only [authenticate]
    rw [hu]
    rfl
  rw [hbody]
  unfold addView
  simp only [hp, Bool.not_true, Bool.false_eq_true, if_false]
  obtain ⟨uid0, em, nm, pw, rl, ad, ac⟩ := u
  dsimp only at hid hrole
  subst hid
  cases rl with
  | owner => exact absurd rfl hrole
  | customer =>
    refine ⟨⟨uid0, em, nm, pw, Role.owner, ad, ac⟩, ?_, rfl, rfl, rfl, rfl, rfl, rfl⟩
    show (db.users.map
        (fun x => if x.id == uid0 then { x with role := Role.owner } else x)).find?
        (fun x => x.id == uid0) = some ⟨uid0, em, nm, pw, Role.owner, ad, ac⟩
    rw [find_map_update UserRec.id uid0 (fun x => { x with role := Role.owner })
      (fun x => rfl) db.users]
    rw [hu2]
    rfl


/-- C2 as amended: for an owner whose lookup finds restaurant `r` with
current category set `C` and a validated non-empty id list `ids`: when
some supplied id is currently linked, the request unassigns exactly the
supplied ids, leaving `C` minus `ids` and linking nothing new; when no
supplied id is linked and every supplied id names an existing category
row, the category set is replaced to equal exactly `ids`.  (The frozen
claim omitted the existence proviso; `assign_categories_cex` refutes it
for a validated set holding an id with no category row.) -/
theorem assign_categories_toggle (db : DB) (uid now : Int) (u : UserRec)
    (r : RestaurantRec) (ids : List Int)
    (hu : findUser db uid = some u)
    (hne : ids.isEmpty = false)
    (hr : firstByOwner db u.id = some r) :
    (m2mOverlap db.restaurant_categories r.id ids = true →
      (assignCategoriesEndpoint db (some uid) (some ids) now).1 = Resp.status 200 ∧
      ∀ c : Int,
        c ∈ catIdsOf (assignCategoriesEndpoint db (some uid) (some ids) now).2 r.id ↔
          (c ∈ catIdsOf db r.id ∧ c ∉ ids)) ∧
    (m2mOverlap db.restaurant_categories r.id ids = false →
      (∀ i ∈ ids, i ∈ db.categories) →
      (assignCategoriesEndpoint db (some uid) (some ids) now).1 = Resp.status 200 ∧
      ∀ c : Int,
        c ∈ catIdsOf (assignCategoriesEndpoint db (some uid) (some ids) now).2 r.id ↔
          c ∈ ids) := by
  have hbody : assignCategoriesEndpoint db (some uid) (some ids) now =
      assignCategoriesView db (some u) (some ids) now := by
    unfold assignCategoriesEndpoint
    rw [runEndpoint_auth .assign_categories db uid u _ hu rfl]
  rw [hbody]
  unfold assignCategoriesView
  simp only [hne, Bool.false_eq_true, if_false, hr]
  constructor
  · intro hov
    rw [if_pos hov]
    refine ⟨rfl, fun c => ?_⟩
    unfold catIdsOf catLinksOf
    exact mem_catIds_m2mRemove db.restaurant_categories r.id ids c
  · intro hov hex
    rw [if_neg (by rw [hov]; exact Bool.false_ne_true)]
    have hall : (ids.all fun c => db.categories.contains c) = true := by
      rw [List.all_eq_true]
      intro i hi
      exact List.elem_iff.mpr (hex i hi)
    rw [if_pos hall]
    refine ⟨rfl, fun c => ?_⟩
    unfold catIdsOf catLinksOf
    exact mem_catIds_m2mSet db.restaurant_categories r.id ids now c hov

/-- C2, counterexample to the claim as frozen: the supplied set `[999]`
passes validation (one integer) and has empty overlap with restaurant 1's
current category set `{1}`, so the frozen claim promises a resulting set
equal to `[999]`; instead, `999` names no category row, the `set()` call
violates the join table's foreign key, the request fails with an
`IntegrityError`, and the category set is left at `[1]`, not `[999]`. -/
theorem assign_categories_cex :
    m2mOverlap sampleDB.restaurant_categories 1 [999] = false ∧
    (assignCategoriesEndpoint sampleDB (some 1) (some [999]) 7).1 =
      Resp.pyError integrityErrorCategory ∧
    (assignCategoriesEndpoint sampleDB (some 1) (some [999]) 7).2 = sampleDB ∧
    catIdsOf (assignCategoriesEndpoint sampleDB (some 1) (some [999]) 7).2 1 = [1] ∧
    ¬ ((999 : Int) ∈
      catIdsOf (assignCategoriesEndpoint sampleDB (some 1) (some [999]) 7).2 1) := by
  refine ⟨rfl, rfl, rfl, rfl, by decide⟩

/-- C5: a category or delivery toggle issued by an acting user only ever
rewrites join rows of that user's own restaurant: category links of every
restaurant belonging to another owner are unchanged, the delivery-link
table is never touched by the category endpoint, and the delivery endpoint
leaves the whole store unchanged on every path. -/
theorem assignment_affects_only_owned (db : DB) (uid now : Int) (u : UserRec)
    (catPayload delPayload : Option (List Int))
    (hu : findUser db uid = some u)
    (hnodup : (db.restaurants.map (fun x => x.id)).Nodup) :
    (∀ r2 ∈ db.restaurants, r2.owner ≠ u.id →
      catLinksOf (assignCategoriesEndpoint db (some uid) catPayload now).2 r2.id =
        catLinksOf db r2.id) ∧
    (assignCategoriesEndpoint db (some uid) catPayload now).2.delivery_links =
      db.delivery_links ∧
    (addDeliveryEndpoint db (some uid) delPayload).2 = db := by
  refine ⟨?_, assign_preserves_delivery db (some uid) catPayload now,
    addDelivery_preserves_db db (some uid) delPayload⟩
  intro r2 hr2 hown
  have hbody : (assignCategoriesEndpoint db (some uid) catPayload now).2 =
      (assignCategoriesView db (some u) catPayload now).2 := by
    unfold assignCategoriesEndpoint
    rw [runEndpoint_auth .assign_categories db uid u _ hu rfl]
  rw [hbody]
  unfold assignCategoriesView
  cases catPayload with
  | none => rfl
  | some ids =>
    by_cases he : ids.isEmpty
    · simp [he]
    · simp only [he, Bool.false_eq_true, if_false]
      cases hr : firstByOwner db u.id with
      | none => rfl
      | some r =>
        dsimp only
        obtain ⟨hrown, hrmem⟩ := firstByOwner_owner db u.id r hr
        have hid : r.id ≠ r2.id := by
          intro heq
          have heq2 : r = r2 := List.inj_on_of_nodup_map hnodup hrmem hr2 heq
          rw [heq2] at hrown
          exact hown hrown
        by_cases h2 : m2mOverlap db.restaurant_categories r.id ids
        · rw [if_pos h2]
          unfold catLinksOf
          exact filter_m2mRemove_other db.restaurant_categories r.id r2.id ids hid
        · rw [if_neg h2]
          by_cases h3 : (ids.all fun c => db.categories.contains c) = true
          · rw [if_pos h3]
            unfold catLinksOf
            exact filter_m2mSet_other db.restaurant_categories r.id r2.id ids now hid
          · rw [if_neg h3]

/-! ### Witnesses: the theorems above instantiated at concrete stores -/

theorem nonowner_mutation_not_denied_witness :
    (patchEndpoint sampleDB (some 2) 1 samplePatch).1 = Resp.status 200 ∧
    restaurantById (patchEndpoint sampleDB (some 2) 1 samplePatch).2 1 =
      some (applyPatch sampleRestaurant samplePatch) ∧
    (destroyEndpoint sampleDB (some 2) 1 5).1 = Resp.status 204 ∧
    restaurantById (destroyEndpoint sampleDB (some 2) 1 5).2 1 =
      some { sampleRestaurant with deleted_at := some 5 } :=
  nonowner_mutation_not_denied sampleDB 2 1 5 sampleCustomer sampleRestaurant
    samplePatch rfl rfl (by decide) (by decide)

theorem assign_categories_toggle_witness :
    (assignCategoriesEndpoint sampleDB (some 1) (some [1, 2]) 7).1 = Resp.status 200 ∧
    ¬ ((1 : Int) ∈ catIdsOf (assignCategoriesEndpoint sampleDB (some 1) (some [1, 2]) 7).2 1) ∧
    (assignCategoriesEndpoint sampleDB (some 1) (some [2, 3]) 7).1 = Resp.status 200 ∧
    ((2 : Int) ∈ catIdsOf (assignCategoriesEndpoint sampleDB (some 1) (some [2, 3]) 7).2 1) := by
  have hrem := (assign_categories_toggle sampleDB 1 7 sampleOwner sampleRestaurant
    (List.cons 1 [2]) rfl rfl rfl).1 (by decide)
  have hset := (assign_categories_toggle sampleDB 1 7 sampleOwner sampleRestaurant
    (List.cons 2 [3]) rfl rfl rfl).2 (by decide) (by decide)
  refine ⟨hrem.1, ?_, hset.1, ?_⟩
  · intro hmem
    have h := (hrem.2 1).mp hmem
    exact h.2 (by decide)
  · exact (hset.2 2).mpr (by decide)

theorem add_promotes_role_once_witness :
    (addEndpoint sampleDB (some 2) sampleCreate).1 = Resp.status 201 ∧
    (addEndpoint sampleDB (some 2) sampleCreate).2.2 = true ∧
    (addEndpoint sampleDB (some 1) sampleCreate).2.2 = false ∧
    (addEndpoint sampleDB (some 1) sampleCreate).2.1.users = sampleDB.users := by
  have h2 := add_promotes_role_once sampleDB 2 sampleCustomer sampleCreate rfl (by decide)
  have h1 := add_promotes_role_once sampleDB 1 sampleOwner sampleCreate rfl (by decide)
  exact ⟨h2.1, h2.2.2.2 (by decide), (h1.2.2.1 rfl).1, (h1.2.2.1 rfl).2⟩

theorem add_delivery_always_raises_witness :
    addDeliveryEndpoint sampleDB (some 1) (some [1]) =
      (Resp.pyError attrErrorDeliveryMethods, sampleDB) :=
  add_delivery_always_raises sampleDB 1 sampleOwner [1] sampleRestaurant rfl rfl rfl

theorem assignment_affects_only_owned_witness :
    catLinksOf (assignCategoriesEndpoint pairDB (some 1) (some [2, 3]) 7).2 2 =
      catLinksOf pairDB 2 ∧
    (assignCategoriesEndpoint pairDB (some 1) (some [2, 3]) 7).2.delivery_links =
      pairDB.delivery_links ∧
    (addDeliveryEndpoint pairDB (some 1) (some [1])).2 = pairDB := by
  have h := assignment_affects_only_owned pairDB 1 7 sampleOwner
    (some [2, 3]) (some [1]) rfl (by decide)
  exact ⟨h.1 otherRestaurant (by decide) (by decide), h.2.1, h.2.2⟩

theorem role_write_touches_only_role_witness :
    ∃ u2, findUser (addEndpoint sampleDB (some 2) sampleCreate).2.1 2 = some u2 ∧
      u2.role = Role.owner ∧
      u2.email = sampleCustomer.email ∧
      u2.name = sampleCustomer.name ∧
      u2.password = sampleCustomer.password ∧
      u2.is_active = sampleCustomer.is_active ∧
      u2.is_admin = sampleCustomer.is_admin :=
  role_write_touches_only_role sampleDB 2 sampleCustomer sampleCreate rfl
    (by decide) (by decide)

theorem ownerless_owner_scoped_404_witness :
    assignCategoriesEndpoint sampleDB (some 2) (some [1]) 7 = (Resp.status 404, sampleDB) ∧
    addDeliveryEndpoint sampleDB (some 2) (some [1]) = (Resp.status 404, sampleDB) ∧
    setImageEndpoint sampleDB (some 2) (some sampleImageURL) = (Resp.status 404, sampleDB) :=
  ownerless_owner_scoped_404 sampleDB 2 sampleCustomer [1] [1] sampleImageURL 7
    rfl (by decide) rfl rfl (by decide)

end Eatly
